import Mathlib

/-!
Formal model of the graph-based workflow execution engine implemented in
src/src/agents/core/graph.py (classes NodeStatus, EdgeCondition, GraphState,
GraphNode, GraphEdge, ExecutionResult, WorkflowGraph).

Modelling choices of the shallow embedding:
* Python dicts become either association lists (ordered, replace-in-place on
  duplicate key, like a Python dict) for the node and checkpoint registries,
  or total lookup functions String to Option V for the free-form maps inside
  GraphState; the statuses map becomes a total function with default pending,
  which matches every read site in the source (all reads use .get with a
  PENDING default or compare against a non-PENDING status).
* Node functions are asynchronous in the source; here a node function is a
  deterministic function from a GraphState snapshot to Except String payload,
  where an error value stands for a raised exception or a timeout (both are
  converted to an error string by the node runner in the source).
* float seconds become rationals; wall-clock fields (execution_time_ms) are
  not modelled.
* The unbounded while-loop of WorkflowGraph.execute becomes a fuel-indexed
  loop with fuel equal to the node count plus one; every processed batch
  turns at least one node terminal, so this fuel is exhausted only in the
  max_parallel = 0 corner where the Python loop itself never terminates.
* The loop state carries an extra ghost field, invoked, recording the node
  ids dispatched to the node runner, in dispatch order; it is written exactly
  once per batch and read by no part of the engine, serving only as the
  observation needed to state re-invocation properties.
-/

namespace SsisToDbt

/-- Status of a graph node (class NodeStatus in the source). -/
inductive NodeStatus where
  | pending
  | running
  | completed
  | failed
  | skipped
  deriving DecidableEq, Repr

/-- Pre-defined edge conditions (class EdgeCondition in the source). -/
inductive EdgeCondition where
  | always
  | onSuccess
  | onFailure
  | conditional
  deriving DecidableEq, Repr

/-- State passed through the graph (class GraphState in the source). -/
structure GraphState (V : Type) where
  data : String → Option V
  nodeResults : String → Option (List (String × V))
  nodeStatuses : String → NodeStatus
  executionPath : List String
  errors : List String
  metadata : String → Option V

/-- GraphState.copy from the source: a field-by-field copy of the state. -/
def GraphState.copy {V : Type} (s : GraphState V) : GraphState V :=
  { data := s.data
    nodeResults := s.nodeResults
    nodeStatuses := s.nodeStatuses
    executionPath := s.executionPath
    errors := s.errors
    metadata := s.metadata }

/-- A node in the execution graph (class GraphNode in the source). -/
structure GraphNode (V : Type) where
  id : String
  name : String
  func : GraphState V → Except String (List (String × V))
  description : String
  timeoutSeconds : Rat
  retryCount : Nat
  retryDelaySeconds : Rat
  required : Bool

/-- An edge connecting two nodes (class GraphEdge in the source). -/
structure GraphEdge (V : Type) where
  source : String
  target : String
  condition : EdgeCondition
  conditionFn : Option (GraphState V → Bool)
  priority : Int

/-- Result of graph execution (class ExecutionResult in the source,
minus the wall-clock execution_time_ms field). -/
structure ExecutionResult (V : Type) where
  success : Bool
  finalState : GraphState V
  nodesExecuted : Nat
  nodesFailed : Nat
  executionOrder : List String

/-- A Python-dict-style association list lookup: first binding wins. -/
def dictLookup {A : Type} : List (String × A) → String → Option A
  | [], _ => none
  | (k, v) :: rest, key => if k = key then some v else dictLookup rest key

/-- A Python-dict-style assignment: replace in place on an existing key
(keeping its position), append a fresh binding otherwise. -/
def dictInsert {A : Type} : List (String × A) → String → A → List (String × A)
  | [], key, v => [(key, v)]
  | (k, w) :: rest, key, v =>
      if k = key then (k, v) :: rest else (k, w) :: dictInsert rest key v

/-- Merging a returned mapping into a dict-as-function, later keys winning
(dict.update in the source). -/
def mergeData {V : Type} (d : String → Option V) (l : List (String × V)) :
    String → Option V :=
  l.foldl (fun acc kv => fun k => if k = kv.1 then some kv.2 else acc k) d

/-- The workflow graph (class WorkflowGraph in the source): ordered node
registry, edge list, optional entry point, finish-point set, checkpoints. -/
structure WorkflowGraph (V : Type) where
  name : String
  nodes : List (String × GraphNode V)
  edges : List (GraphEdge V)
  startNode : Option String
  endNodes : List String
  checkpoints : List (String × GraphState V)

/-- The node ids of a graph, in registration order. -/
def WorkflowGraph.nodeIds {V : Type} (g : WorkflowGraph V) : List String :=
  g.nodes.map Prod.fst

/-- The GraphNode built by WorkflowGraph.add_node: the name defaults to
the id and the retry delay to one second. -/
def buildNode {V : Type} (id : String)
    (func : GraphState V → Except String (List (String × V)))
    (name : Option String) (description : String) (timeoutSeconds : Rat)
    (retryCount : Nat) (required : Bool) : GraphNode V :=
  { id := id
    name := name.getD id
    func := func
    description := description
    timeoutSeconds := timeoutSeconds
    retryCount := retryCount
    retryDelaySeconds := 1
    required := required }

/-- WorkflowGraph.add_node from the source: unconditionally assigns
self._nodes[id] = GraphNode(...), replacing any existing node with that id;
no duplicate check is performed. -/
def WorkflowGraph.addNode {V : Type} (g : WorkflowGraph V) (id : String)
    (func : GraphState V → Except String (List (String × V)))
    (name : Option String) (description : String) (timeoutSeconds : Rat)
    (retryCount : Nat) (required : Bool) : WorkflowGraph V :=
  { g with nodes := dictInsert g.nodes id (buildNode id func name description timeoutSeconds retryCount required) }

/-- WorkflowGraph.add_edge from the source: rejects edges whose endpoints
are not registered nodes, otherwise appends the edge. -/
def WorkflowGraph.addEdge {V : Type} (g : WorkflowGraph V)
    (source target : String) (condition : EdgeCondition)
    (conditionFn : Option (GraphState V → Bool)) (priority : Int) :
    Except String (WorkflowGraph V) :=
  if (dictLookup g.nodes source).isNone then
    .error ("Source node " ++ source ++ " not found")
  else if (dictLookup g.nodes target).isNone then
    .error ("Target node " ++ target ++ " not found")
  else
    .ok { g with edges := g.edges ++
      [{ source := source, target := target, condition := condition,
         conditionFn := conditionFn, priority := priority }] }

/-- WorkflowGraph.set_entry_point from the source. -/
def WorkflowGraph.setEntryPoint {V : Type} (g : WorkflowGraph V)
    (nodeId : String) : Except String (WorkflowGraph V) :=
  if (dictLookup g.nodes nodeId).isNone then
    .error ("Node " ++ nodeId ++ " not found")
  else .ok { g with startNode := some nodeId }

/-- WorkflowGraph.set_finish_point from the source (the end-node set). -/
def WorkflowGraph.setFinishPoint {V : Type} (g : WorkflowGraph V)
    (nodeId : String) : Except String (WorkflowGraph V) :=
  if (dictLookup g.nodes nodeId).isNone then
    .error ("Node " ++ nodeId ++ " not found")
  else if nodeId ∈ g.endNodes then .ok g
  else .ok { g with endNodes := g.endNodes ++ [nodeId] }

/-- WorkflowGraph._get_incoming_edges from the source. -/
def WorkflowGraph.getIncomingEdges {V : Type} (g : WorkflowGraph V)
    (nodeId : String) : List (GraphEdge V) :=
  g.edges.filter (fun e => e.target == nodeId)

/-- WorkflowGraph._evaluate_edge_condition from the source: the source
status is read with default PENDING; ALWAYS and ON_SUCCESS require the
source COMPLETED, ON_FAILURE requires it FAILED, CONDITIONAL delegates to
the predicate (true when no predicate is attached). -/
def evaluateEdgeCondition {V : Type} (edge : GraphEdge V)
    (state : GraphState V) : Bool :=
  let sourceStatus := state.nodeStatuses edge.source
  match edge.condition with
  | .always => sourceStatus == .completed
  | .onSuccess => sourceStatus == .completed
  | .onFailure => sourceStatus == .failed
  | .conditional =>
      match edge.conditionFn with
      | some f => f state
      | none => true

/-- One Python-level terminal-status membership test,
node_statuses.get(id) in [COMPLETED, FAILED, SKIPPED]. -/
def isTerminalStatus (s : NodeStatus) : Bool :=
  s == .completed || s == .failed || s == .skipped

/-- The per-node body of WorkflowGraph._get_ready_nodes from the source:
skip terminal and running nodes; the entry point with no incoming edge is
ready; a node with no incoming edge otherwise is not; any other node is
ready when at least one incoming edge condition is satisfied. -/
def nodeReady {V : Type} (g : WorkflowGraph V) (state : GraphState V)
    (nodeId : String) : Bool :=
  if isTerminalStatus (state.nodeStatuses nodeId) then false
  else if state.nodeStatuses nodeId == .running then false
  else if g.startNode == some nodeId && (g.getIncomingEdges nodeId).isEmpty
    then true
  else if (g.getIncomingEdges nodeId).isEmpty then false
  else (g.getIncomingEdges nodeId).any (fun e => evaluateEdgeCondition e state)

/-- WorkflowGraph._get_ready_nodes from the source: the node ids, in
registration order, whose readiness test passes. -/
def getReadyNodes {V : Type} (g : WorkflowGraph V) (state : GraphState V) :
    List String :=
  g.nodeIds.filter (nodeReady g state)

/-- The observable behaviour of one WorkflowGraph._execute_node call:
its returned value, how many times the node function was invoked, and the
list of backoff delays slept between consecutive attempts, in order. -/
structure NodeRunResult (V : Type) where
  result : Except String (List (String × V))
  invocations : Nat
  delays : List Rat

/-- The retry loop of WorkflowGraph._execute_node from the source. The
source loops while the attempt counter is at most retry_count; here the
two loop quantities are carried separately: remaining is
retry_count minus the attempt counter (so the counter at entry satisfies
the loop condition exactly when it did in the source), and attempts is the
counter itself, used for the backoff formula. Each attempt calls the node
function on a copy of the state; on failure the counter advances and, when
another attempt remains, the runner sleeps
retry_delay_seconds * advanced-counter before looping. -/
def attemptLoop {V : Type} (node : GraphNode V) (state : GraphState V) :
    Nat → Nat → NodeRunResult V
  | remaining, attempts =>
    match node.func state.copy with
    | .ok d => { result := .ok d, invocations := 1, delays := [] }
    | .error e =>
        match remaining with
        | 0 => { result := .error e, invocations := 1, delays := [] }
        | r + 1 =>
            let rest := attemptLoop node state r (attempts + 1)
            { result := rest.result
              invocations := rest.invocations + 1
              delays := node.retryDelaySeconds * (((attempts + 1 : Nat)) : Rat)
                :: rest.delays }

/-- WorkflowGraph._execute_node from the source: the retry loop started at
attempt counter zero, hence with retry_count attempts remaining beyond the
first. A failure never escapes as an exception; it is the error branch of
the returned value. -/
def executeNode {V : Type} (node : GraphNode V) (state : GraphState V) :
    NodeRunResult V :=
  attemptLoop node state node.retryCount 0

/-- Point update of the status map (node_statuses[id] = status). -/
def setStatus {V : Type} (s : GraphState V) (nodeId : String)
    (st : NodeStatus) : GraphState V :=
  { s with nodeStatuses := fun n => if n = nodeId then st else s.nodeStatuses n }

/-- The mutable loop variables of WorkflowGraph.execute, plus the ghost
dispatch trace. -/
structure LoopState (V : Type) where
  state : GraphState V
  nodesExecuted : Nat
  nodesFailed : Nat
  invoked : List String

/-- A node used when a dispatched id is missing from the registry; ready
nodes always come from the registry, so it is never reached. -/
def defaultNode (V : Type) : GraphNode V :=
  { id := ""
    name := ""
    func := fun _ => .error "node not found"
    description := ""
    timeoutSeconds := 300
    retryCount := 0
    retryDelaySeconds := 1
    required := true }

/-- One entry of the result-processing for-loop of WorkflowGraph.execute:
count the execution; on success mark the node COMPLETED, record the
returned mapping under its id, merge the mapping into the data (later keys
winning), and append the id to the execution path; on failure mark the
node FAILED, append an error string, and count the failure. The Boolean
is whether the loop must stop at once, i.e. whether a failed node is
required. -/
def processOne {V : Type} (g : WorkflowGraph V) (nodeId : String)
    (res : NodeRunResult V) (ls : LoopState V) : LoopState V × Bool :=
  match res.result with
  | .ok d =>
      ({ state :=
           { data := mergeData ls.state.data d
             nodeResults := fun n => if n = nodeId then some d
               else ls.state.nodeResults n
             nodeStatuses := fun n => if n = nodeId then .completed
               else ls.state.nodeStatuses n
             executionPath := ls.state.executionPath ++ [nodeId]
             errors := ls.state.errors
             metadata := ls.state.metadata }
         nodesExecuted := ls.nodesExecuted + 1
         nodesFailed := ls.nodesFailed
         invoked := ls.invoked }, false)
  | .error e =>
      ({ state :=
           { data := ls.state.data
             nodeResults := ls.state.nodeResults
             nodeStatuses := fun n => if n = nodeId then .failed
               else ls.state.nodeStatuses n
             executionPath := ls.state.executionPath
             errors := ls.state.errors ++ ["Node " ++ nodeId ++ ": " ++ e]
             metadata := ls.state.metadata }
         nodesExecuted := ls.nodesExecuted + 1
         nodesFailed := ls.nodesFailed + 1
         invoked := ls.invoked },
       ((dictLookup g.nodes nodeId).getD (defaultNode V)).required)

/-- The result-processing for-loop of WorkflowGraph.execute over the
(node id, runner result) pairs in batch order: a required failure stops at
once (the Boolean true), leaving the remaining pairs unprocessed. -/
def processResults {V : Type} (g : WorkflowGraph V) :
    List (String × NodeRunResult V) → LoopState V → LoopState V × Bool
  | [], ls => (ls, false)
  | (nodeId, res) :: rest, ls =>
      match processOne g nodeId res ls with
      | (ls2, true) => (ls2, true)
      | (ls2, false) => processResults g rest ls2

/-- The outcome of one iteration of the main execution loop. -/
inductive IterOut (V : Type) where
  | finished (ls : LoopState V)
  | cont (ls : LoopState V)
  | aborted (ls : LoopState V)

/-- The loop state carried by an iteration outcome. -/
def IterOut.toLS {V : Type} : IterOut V → LoopState V
  | .finished ls => ls
  | .cont ls => ls
  | .aborted ls => ls

/-- One iteration of the main loop of WorkflowGraph.execute: compute the
ready nodes against the committed state; stop when none; otherwise take the
first max_parallel as the batch, mark the whole batch RUNNING, run every
batch node on a copy of that marked state, then process the results in
batch order; a required failure aborts, otherwise loop. -/
def loopIter {V : Type} (g : WorkflowGraph V) (maxParallel : Nat)
    (ls : LoopState V) : IterOut V :=
  let ready := getReadyNodes g ls.state
  if ready.isEmpty then .finished ls
  else
    let batch := ready.take maxParallel
    let marked := batch.foldl (fun s nodeId => setStatus s nodeId .running)
      ls.state
    let pairs := batch.map (fun nodeId =>
      (nodeId, executeNode ((dictLookup g.nodes nodeId).getD (defaultNode V))
        marked.copy))
    let ls1 : LoopState V :=
      { ls with state := marked, invoked := ls.invoked ++ batch }
    match processResults g pairs ls1 with
    | (ls2, true) => .aborted ls2
    | (ls2, false) => .cont ls2

/-- The outcome of the whole execution loop. -/
inductive LoopOutcome (V : Type) where
  | finished (ls : LoopState V)
  | aborted (ls : LoopState V)
  | outOfFuel (ls : LoopState V)

/-- The loop state carried by a loop outcome. -/
def LoopOutcome.toLS {V : Type} : LoopOutcome V → LoopState V
  | .finished ls => ls
  | .aborted ls => ls
  | .outOfFuel ls => ls

/-- Whether a loop outcome is the normal (ready-set-empty) exit. -/
def LoopOutcome.isFinished {V : Type} : LoopOutcome V → Bool
  | .finished _ => true
  | _ => false

/-- Whether a loop outcome is the required-failure early return. -/
def LoopOutcome.isAborted {V : Type} : LoopOutcome V → Bool
  | .aborted _ => true
  | _ => false

/-- The fuel-indexed main loop of WorkflowGraph.execute. -/
def execLoop {V : Type} (g : WorkflowGraph V) (maxParallel : Nat) :
    Nat → LoopState V → LoopOutcome V
  | 0, ls => .outOfFuel ls
  | fuel + 1, ls =>
      match loopIter g maxParallel ls with
      | .finished ls1 => .finished ls1
      | .aborted ls1 => .aborted ls1
      | .cont ls1 => execLoop g maxParallel fuel ls1

/-- The fresh state built by GraphState(data=initial_state or {}). -/
def freshState {V : Type} (initial : Option (List (String × V))) :
    GraphState V :=
  { data := mergeData (fun _ => none) (initial.getD [])
    nodeResults := fun _ => none
    nodeStatuses := fun _ => .pending
    executionPath := []
    errors := []
    metadata := fun _ => none }

/-- The state-initialisation step of WorkflowGraph.execute: when a
checkpoint id is passed, is truthy (non-empty), and is stored, start from a
copy of the stored snapshot; otherwise start from a fresh state built from
the initial data. -/
def initialRunState {V : Type} (g : WorkflowGraph V)
    (initial : Option (List (String × V))) (checkpointId : Option String) :
    GraphState V :=
  match checkpointId with
  | some cid =>
      if cid ≠ "" then
        match dictLookup g.checkpoints cid with
        | some snap => snap.copy
        | none => freshState initial
      else freshState initial
  | none => freshState initial

/-- WorkflowGraph.execute up to its loop outcome: none models the
ValueError raised when no (truthy) entry point is set; the fuel is the node
count plus one, which the loop exhausts only when max_parallel is zero. -/
def executeOutcome {V : Type} (g : WorkflowGraph V)
    (initial : Option (List (String × V))) (checkpointId : Option String)
    (maxParallel : Nat) : Option (LoopOutcome V) :=
  match g.startNode with
  | none => none
  | some s =>
      if s = "" then none
      else some (execLoop g maxParallel (g.nodes.length + 1)
        { state := initialRunState g initial checkpointId
          nodesExecuted := 0
          nodesFailed := 0
          invoked := [] })

/-- WorkflowGraph.execute from the source: on the normal exit, success is
the finish-point rule (some declared finish node COMPLETED when finish
points exist, zero failures otherwise); the required-failure early return
carries success false. -/
def execute {V : Type} (g : WorkflowGraph V)
    (initial : Option (List (String × V))) (checkpointId : Option String)
    (maxParallel : Nat) : Except String (ExecutionResult V) :=
  match executeOutcome g initial checkpointId maxParallel with
  | none => .error "No entry point set"
  | some (.finished ls) =>
      .ok { success :=
              if g.endNodes.isEmpty then ls.nodesFailed == 0
              else g.endNodes.any
                (fun n => ls.state.nodeStatuses n == .completed)
            finalState := ls.state
            nodesExecuted := ls.nodesExecuted
            nodesFailed := ls.nodesFailed
            executionOrder := ls.state.executionPath }
  | some (.aborted ls) =>
      .ok { success := false
            finalState := ls.state
            nodesExecuted := ls.nodesExecuted
            nodesFailed := ls.nodesFailed
            executionOrder := ls.state.executionPath }
  | some (.outOfFuel _) =>
      .error "execution loop made no progress within the node-count bound"

/-- WorkflowGraph.checkpoint from the source: store a copy of the state
under the given id. -/
def WorkflowGraph.checkpoint {V : Type} (g : WorkflowGraph V) (cid : String)
    (state : GraphState V) : WorkflowGraph V :=
  { g with checkpoints := dictInsert g.checkpoints cid state.copy }

/-- WorkflowGraph.get_checkpoint from the source. -/
def WorkflowGraph.getCheckpoint {V : Type} (g : WorkflowGraph V)
    (cid : String) : Option (GraphState V) :=
  dictLookup g.checkpoints cid

/-! ### General lemmas about the engine -/

theorem dictLookup_dictInsert_self {A : Type} (l : List (String × A))
    (k : String) (v : A) :
    dictLookup (dictInsert l k v) k = some v := by
  induction l with
  | nil => simp [dictInsert, dictLookup]
  | cons p rest ih =>
      obtain ⟨k1, v1⟩ := p
      by_cases hk : k1 = k
      · simp [dictInsert, dictLookup, hk]
      · simp [dictInsert, dictLookup, hk, ih]

theorem dictInsert_keys_of_mem {A : Type} (l : List (String × A))
    (k : String) (v : A) (h : k ∈ l.map Prod.fst) :
    (dictInsert l k v).map Prod.fst = l.map Prod.fst := by
  induction l with
  | nil => simp at h
  | cons p rest ih =>
      obtain ⟨k1, v1⟩ := p
      by_cases hk : k1 = k
      · simp [dictInsert, hk]
      · have hr : k ∈ rest.map Prod.fst := by
          rw [List.map_cons] at h
          rcases List.mem_cons.mp h with h1 | h2
          · exact absurd h1.symm hk
          · exact h2
        simp [dictInsert, hk, ih hr]

theorem isTerminalStatus_iff (s : NodeStatus) :
    isTerminalStatus s = true ↔
      s = .completed ∨ s = .failed ∨ s = .skipped := by
  cases s <;> simp [isTerminalStatus]

theorem nodeReady_eq_false_of_terminal {V : Type} (g : WorkflowGraph V)
    (s : GraphState V) (n : String)
    (h : isTerminalStatus (s.nodeStatuses n) = true) :
    nodeReady g s n = false := by
  simp [nodeReady, h]

theorem mem_getReadyNodes {V : Type} (g : WorkflowGraph V)
    (s : GraphState V) (n : String) :
    n ∈ getReadyNodes g s ↔ n ∈ g.nodeIds ∧ nodeReady g s n = true := by
  simp [getReadyNodes, List.mem_filter]

theorem not_mem_getReadyNodes_of_terminal {V : Type} (g : WorkflowGraph V)
    (s : GraphState V) (n : String)
    (h : isTerminalStatus (s.nodeStatuses n) = true) :
    n ∉ getReadyNodes g s := by
  intro hmem
  have := (mem_getReadyNodes g s n).mp hmem
  rw [nodeReady_eq_false_of_terminal g s n h] at this
  exact absurd this.2 (by simp)

theorem nodeReady_iff {V : Type} (g : WorkflowGraph V) (s : GraphState V)
    (n : String) :
    nodeReady g s n = true ↔
      (s.nodeStatuses n ≠ .completed ∧ s.nodeStatuses n ≠ .failed
        ∧ s.nodeStatuses n ≠ .skipped ∧ s.nodeStatuses n ≠ .running
        ∧ ((g.startNode = some n ∧ g.getIncomingEdges n = [])
            ∨ ∃ e ∈ g.getIncomingEdges n, evaluateEdgeCondition e s = true)) := by
  cases hst : s.nodeStatuses n with
  | pending =>
      by_cases hstart : g.startNode = some n
      · by_cases hinc : g.getIncomingEdges n = []
        · simp [nodeReady, isTerminalStatus, hst, hstart, hinc]
        · simp [nodeReady, isTerminalStatus, hst, hstart, hinc,
            List.any_eq_true]
      · by_cases hinc : g.getIncomingEdges n = []
        · simp [nodeReady, isTerminalStatus, hst, hstart, hinc]
        · simp [nodeReady, isTerminalStatus, hst, hstart, hinc,
            List.any_eq_true]
  | running => simp [nodeReady, isTerminalStatus, hst]
  | completed => simp [nodeReady, isTerminalStatus, hst]
  | failed => simp [nodeReady, isTerminalStatus, hst]
  | skipped => simp [nodeReady, isTerminalStatus, hst]

theorem setStatus_preserve {V : Type} (s : GraphState V) (nodeId m : String)
    (st : NodeStatus) (h : m ≠ nodeId) :
    (setStatus s nodeId st).nodeStatuses m = s.nodeStatuses m := by
  simp [setStatus, h]

theorem foldl_setStatus_preserve {V : Type} (batch : List String)
    (s : GraphState V) (st : NodeStatus) (n : String) (h : n ∉ batch) :
    (batch.foldl (fun acc nodeId => setStatus acc nodeId st) s).nodeStatuses n
      = s.nodeStatuses n := by
  induction batch generalizing s with
  | nil => rfl
  | cons b rest ih =>
      have hn : n ≠ b := fun heq => h (heq ▸ List.mem_cons_self b rest)
      have hrest : n ∉ rest := fun hmem => h (List.mem_cons_of_mem b hmem)
      simp only [List.foldl_cons]
      rw [ih (setStatus s b st) hrest, setStatus_preserve s b n st hn]

theorem processOne_status_preserve {V : Type} (g : WorkflowGraph V)
    (nodeId : String) (res : NodeRunResult V) (ls : LoopState V) (n : String)
    (hn : n ≠ nodeId) :
    (processOne g nodeId res ls).1.state.nodeStatuses n
      = ls.state.nodeStatuses n := by
  cases hr : res.result <;> simp [processOne, hr, hn]

theorem processOne_invoked {V : Type} (g : WorkflowGraph V)
    (nodeId : String) (res : NodeRunResult V) (ls : LoopState V) :
    (processOne g nodeId res ls).1.invoked = ls.invoked := by
  cases hr : res.result <;> simp [processOne, hr]

theorem processResults_status_preserve {V : Type} (g : WorkflowGraph V)
    (pairs : List (String × NodeRunResult V)) (ls : LoopState V) (n : String)
    (h : n ∉ pairs.map Prod.fst) :
    (processResults g pairs ls).1.state.nodeStatuses n
      = ls.state.nodeStatuses n := by
  induction pairs generalizing ls with
  | nil => rfl
  | cons p rest ih =>
      obtain ⟨nodeId, res⟩ := p
      have hn : n ≠ nodeId := by
        intro heq; exact h (by simp [heq])
      have hrest : n ∉ rest.map Prod.fst := by
        intro hmem; exact h (by simp [hmem])
      rcases hpo : processOne g nodeId res ls with ⟨ls2, b⟩
      have hst : ls2.state.nodeStatuses n = ls.state.nodeStatuses n := by
        have hx := processOne_status_preserve g nodeId res ls n hn
        rw [hpo] at hx; exact hx
      cases b with
      | true => simp only [processResults, hpo]; exact hst
      | false =>
          simp only [processResults, hpo]
          rw [ih ls2 hrest]; exact hst

theorem processResults_invoked {V : Type} (g : WorkflowGraph V)
    (pairs : List (String × NodeRunResult V)) (ls : LoopState V) :
    (processResults g pairs ls).1.invoked = ls.invoked := by
  induction pairs generalizing ls with
  | nil => rfl
  | cons p rest ih =>
      obtain ⟨nodeId, res⟩ := p
      rcases hpo : processOne g nodeId res ls with ⟨ls2, b⟩
      have hinv : ls2.invoked = ls.invoked := by
        have hx := processOne_invoked g nodeId res ls
        rw [hpo] at hx; exact hx
      cases b with
      | true => simp only [processResults, hpo]; exact hinv
      | false =>
          simp only [processResults, hpo]
          rw [ih ls2]; exact hinv

theorem loopIter_terminal {V : Type} (g : WorkflowGraph V) (mp : Nat)
    (ls : LoopState V) (n : String)
    (h : isTerminalStatus (ls.state.nodeStatuses n) = true) :
    (loopIter g mp ls).toLS.state.nodeStatuses n = ls.state.nodeStatuses n
      ∧ (n ∉ ls.invoked → n ∉ (loopIter g mp ls).toLS.invoked) := by
  have hready : n ∉ getReadyNodes g ls.state :=
    not_mem_getReadyNodes_of_terminal g ls.state n h
  have hbatch : n ∉ (getReadyNodes g ls.state).take mp := fun hmem =>
    hready ((List.take_sublist mp (getReadyNodes g ls.state)).subset hmem)
  simp only [loopIter]
  split
  · exact ⟨rfl, fun hi => hi⟩
  · set batch := (getReadyNodes g ls.state).take mp with hb
    set marked := batch.foldl (fun s nodeId => setStatus s nodeId .running)
      ls.state with hm
    set pairs := batch.map (fun nodeId =>
      (nodeId, executeNode ((dictLookup g.nodes nodeId).getD (defaultNode V))
        marked.copy)) with hp
    set ls1 : LoopState V :=
      { ls with state := marked, invoked := ls.invoked ++ batch } with hls1
    have hpairs : n ∉ pairs.map Prod.fst := by
      rw [hp]
      simp only [List.map_map]
      intro hmem
      obtain ⟨x, hx, hxe⟩ := List.mem_map.mp hmem
      exact hbatch (hxe ▸ hx)
    have hstat :
        (processResults g pairs ls1).1.state.nodeStatuses n
          = ls.state.nodeStatuses n := by
      rw [processResults_status_preserve g pairs ls1 n hpairs]
      exact foldl_setStatus_preserve batch ls.state .running n hbatch
    have hinv : (processResults g pairs ls1).1.invoked
        = ls.invoked ++ batch := processResults_invoked g pairs ls1
    rcases hpr : processResults g pairs ls1 with ⟨ls2, b⟩
    rw [hpr] at hstat hinv
    cases b <;>
      exact ⟨hstat, fun hni hmem => by
        rw [IterOut.toLS] at hmem
        rw [hinv] at hmem
        rcases List.mem_append.mp hmem with h1 | h2
        · exact hni h1
        · exact hbatch h2⟩

theorem execLoop_terminal {V : Type} (g : WorkflowGraph V) (mp : Nat)
    (fuel : Nat) (ls : LoopState V) (n : String)
    (h : isTerminalStatus (ls.state.nodeStatuses n) = true) :
    (execLoop g mp fuel ls).toLS.state.nodeStatuses n
        = ls.state.nodeStatuses n
      ∧ (n ∉ ls.invoked → n ∉ (execLoop g mp fuel ls).toLS.invoked) := by
  induction fuel generalizing ls with
  | zero => exact ⟨rfl, fun hi => hi⟩
  | succ fuel ih =>
      have hIt := loopIter_terminal g mp ls n h
      simp only [execLoop]
      rcases hcase : loopIter g mp ls with ls1 | ls1 | ls1 <;>
        rw [hcase] at hIt <;>
        simp only [IterOut.toLS] at hIt
      · exact ⟨hIt.1, hIt.2⟩
      · have hterm1 : isTerminalStatus (ls1.state.nodeStatuses n) = true := by
          rw [hIt.1]; exact h
        have := ih ls1 hterm1
        exact ⟨this.1.trans hIt.1, fun hni => (this.2 (hIt.2 hni))⟩
      · exact ⟨hIt.1, hIt.2⟩

theorem attemptLoop_always_error {V : Type} (node : GraphNode V)
    (s : GraphState V) (e : String) (h : ∀ t, node.func t = .error e) :
    ∀ remaining attempts : Nat,
      attemptLoop node s remaining attempts =
        { result := .error e
          invocations := remaining + 1
          delays := (List.range remaining).map (fun k =>
            node.retryDelaySeconds * (((attempts + 1 + k : Nat)) : Rat)) } := by
  intro remaining
  induction remaining with
  | zero =>
      intro attempts
      simp [attemptLoop, h]
  | succ r ih =>
      intro attempts
      have hd : (List.range (r + 1)).map (fun k =>
          node.retryDelaySeconds * (((attempts + 1 + k : Nat)) : Rat))
        = node.retryDelaySeconds * (((attempts + 1 : Nat)) : Rat)
          :: (List.range r).map (fun k =>
            node.retryDelaySeconds * (((attempts + 1 + 1 + k : Nat)) : Rat)) := by
        rw [List.range_succ_eq_map, List.map_cons, List.map_map]
        refine congrArg₂ List.cons (by norm_num) ?_
        apply List.map_congr_left
        intro a ha
        simp only [Function.comp]
        congr 1
        push_cast
        ring
      simp only [attemptLoop, h, ih (attempts + 1), hd]

/-! ### Concrete graphs used in the claim instances -/

/-- A node body returning the empty mapping. -/
def okFn : GraphState Nat → Except String (List (String × Nat)) :=
  fun _ => .ok []

/-- A node body raising on every call. -/
def failFn : GraphState Nat → Except String (List (String × Nat)) :=
  fun _ => .error "boom"

/-- A node with the default timeout, retry and delay settings. -/
def mkNode (id : String)
    (f : GraphState Nat → Except String (List (String × Nat)))
    (req : Bool) : GraphNode Nat :=
  { id := id, name := id, func := f, description := ""
    timeoutSeconds := 300, retryCount := 0, retryDelaySeconds := 1
    required := req }

/-- An ALWAYS edge. -/
def mkEdge (s t : String) : GraphEdge Nat :=
  { source := s, target := t, condition := .always, conditionFn := none
    priority := 0 }

/-- The A, B, C chain with B optional and always failing, connected by
ALWAYS edges, entry point A, no finish points. -/
def c1graph : WorkflowGraph Nat :=
  { name := "c1"
    nodes := [("A", mkNode "A" okFn true), ("B", mkNode "B" failFn false),
              ("C", mkNode "C" okFn true)]
    edges := [mkEdge "A" "B", mkEdge "B" "C"]
    startNode := some "A"
    endNodes := []
    checkpoints := [] }

/-- The A, B, C chain with B required and always failing. -/
def c4graph : WorkflowGraph Nat :=
  { c1graph with
    nodes := [("A", mkNode "A" okFn true), ("B", mkNode "B" failFn true),
              ("C", mkNode "C" okFn true)] }

/-- A four-node chain, entry point n1, no finish points. -/
def g4base : WorkflowGraph Nat :=
  { name := "chain4"
    nodes := [("n1", mkNode "n1" okFn true), ("n2", mkNode "n2" okFn true),
              ("n3", mkNode "n3" okFn true), ("n4", mkNode "n4" okFn true)]
    edges := [mkEdge "n1" "n2", mkEdge "n2" "n3", mkEdge "n3" "n4"]
    startNode := some "n1"
    endNodes := []
    checkpoints := [] }

/-- The snapshot of the four-node chain taken after n2 completed: n1 and
n2 terminal, the rest untouched. -/
def snap4 : GraphState Nat :=
  { data := fun _ => none
    nodeResults := fun _ => none
    nodeStatuses := fun n =>
      if n = "n1" then .completed else if n = "n2" then .completed
      else .pending
    executionPath := ["n1", "n2"]
    errors := []
    metadata := fun _ => none }

/-- The four-node chain with the mid-run snapshot stored under "ck". -/
def g4 : WorkflowGraph Nat := g4base.checkpoint "ck" snap4

/-- Two nodes S and T joined by a CONDITIONAL edge with no predicate;
the entry point is T, so S is never ready. -/
def c9graph : WorkflowGraph Nat :=
  { name := "c9"
    nodes := [("S", mkNode "S" okFn true), ("T", mkNode "T" okFn true)]
    edges := [{ source := "S", target := "T", condition := .conditional,
                conditionFn := none, priority := 0 }]
    startNode := some "T"
    endNodes := []
    checkpoints := [] }

/-- An always-failing node with three retries and a two-second base
backoff. -/
def rnode : GraphNode Nat :=
  { id := "R", name := "R", func := failFn, description := ""
    timeoutSeconds := 300, retryCount := 3, retryDelaySeconds := 2
    required := true }

/-- An empty loop state over a fresh graph state. -/
def ls0 : LoopState Nat :=
  { state := freshState none, nodesExecuted := 0, nodesFailed := 0
    invoked := [] }

/-! ### Claims -/

/-- C1, counterexample: on the A, B, C graph with B optional and always
failing, joined by ALWAYS edges and with no finish points declared, the
claim asserts ExecutionResult.success is True; the engine in fact returns
success False, because with no finish points success is the zero-failures
test and the optional failure of B counts. -/
theorem c1_counterexample :
    (execute c1graph none none 5).map (fun r => r.success) = .ok false
      ∧ ¬ (execute c1graph none none 5).map (fun r => r.success)
          = .ok true := by
  have h1 : (execute c1graph none none 5).map (fun r => r.success)
      = .ok false := rfl
  refine ⟨h1, fun h => ?_⟩
  rw [h1] at h
  exact Bool.false_ne_true (Except.ok.inj h)

/-- C1, amended: on the A, B, C graph with B optional and always failing,
joined by ALWAYS edges, C stays PENDING and is never dispatched, the run
ends by the normal ready-set-empty exit (the optional failure does not
abort it), exactly one failure is counted, and ExecutionResult.success is
False, since with no finish points declared success requires zero
failures, optional or not. -/
theorem c1_amended :
    (execute c1graph none none 5).map
        (fun r => (r.success, r.finalState.nodeStatuses "C", r.nodesFailed))
      = .ok (false, .pending, 1)
      ∧ (executeOutcome c1graph none none 5).map
          (fun o => (o.isFinished, o.toLS.invoked))
        = some (true, ["A", "B"]) := by
  exact ⟨rfl, rfl⟩

/-- C4: on the A, B, C chain with B required and always failing, the run
takes the required-failure early return (it terminates as soon as the
failure of B is processed), C stays PENDING and is never dispatched, and
ExecutionResult.success is False. -/
theorem c4_required_failure_aborts :
    (execute c4graph none none 5).map
        (fun r => (r.success, r.finalState.nodeStatuses "C",
          r.executionOrder))
      = .ok (false, .pending, ["A"])
      ∧ (executeOutcome c4graph none none 5).map
          (fun o => (o.isAborted, o.toLS.invoked))
        = some (true, ["A", "B"]) := by
  exact ⟨rfl, rfl⟩

/-- A graph with no nodes, over which add_node is exercised. -/
def c6empty : WorkflowGraph Nat :=
  { name := "c6", nodes := [], edges := [], startNode := none
    endNodes := [], checkpoints := [] }

/-- The empty graph after registering node A once. -/
def c6g1 : WorkflowGraph Nat :=
  c6empty.addNode "A" okFn none "" 300 0 true

/-- c6g1 after a second add_node call with the already-registered id A and
different settings. -/
def c6g2 : WorkflowGraph Nat :=
  c6g1.addNode "A" okFn none "" 300 5 false

/-- C6, counterexample: calling add_node a second time with the
already-registered id A is not rejected; the call goes through (add_node
has no failure path at all) and the registry afterwards holds exactly one
node under A, carrying the settings of the second call, so the node was
replaced, contradicting the claim that a duplicate id is rejected rather
than registered or replaced. -/
theorem c6_counterexample :
    c6g2.nodes.length = 1
      ∧ (dictLookup c6g2.nodes "A").map (fun nd => (nd.retryCount, nd.required))
        = some (5, false)
      ∧ (dictLookup c6g1.nodes "A").map (fun nd => (nd.retryCount, nd.required))
        = some (0, true) := by
  exact ⟨rfl, rfl, rfl⟩

/-- C6, amended: calling add_node again with an already-registered id is
accepted, never raising: it overwrites the existing entry in place,
keeping the registry key sequence unchanged, and afterwards the id maps to
the node built from the arguments of the second call. -/
theorem c6_addNode_overwrites {V : Type} (g : WorkflowGraph V) (id : String)
    (func : GraphState V → Except String (List (String × V)))
    (name : Option String) (description : String) (timeoutSeconds : Rat)
    (retryCount : Nat) (required : Bool) (h : id ∈ g.nodeIds) :
    (g.addNode id func name description timeoutSeconds retryCount
        required).nodeIds = g.nodeIds
      ∧ dictLookup (g.addNode id func name description timeoutSeconds
          retryCount required).nodes id
        = some (buildNode id func name description timeoutSeconds retryCount
            required) := by
  constructor
  · exact dictInsert_keys_of_mem g.nodes id _ h
  · exact dictLookup_dictInsert_self g.nodes id _

/-- C6, witness for the amended theorem at the concrete duplicate
registration. -/
theorem c6_addNode_overwrites_witness :
    c6g2.nodeIds = c6g1.nodeIds
      ∧ dictLookup c6g2.nodes "A"
        = some (buildNode "A" okFn none "" 300 5 false) := by
  exact c6_addNode_overwrites c6g1 "A" okFn none "" 300 5 false
    (by simp [c6g1, c6empty, WorkflowGraph.addNode, WorkflowGraph.nodeIds,
      dictInsert])

/-- C3: the readiness evaluator returns exactly the registered nodes whose
status is neither terminal (COMPLETED, FAILED, SKIPPED) nor RUNNING and
which either are the entry point with no incoming edges or have at least
one incoming edge whose condition evaluates true; an ALWAYS or ON_SUCCESS
edge is true exactly when its source is COMPLETED and an ON_FAILURE edge
exactly when its source is FAILED. -/
theorem c3_ready_characterisation {V : Type} (g : WorkflowGraph V)
    (s : GraphState V) :
    (∀ n, n ∈ getReadyNodes g s ↔
      (n ∈ g.nodeIds ∧ s.nodeStatuses n ≠ .completed
        ∧ s.nodeStatuses n ≠ .failed ∧ s.nodeStatuses n ≠ .skipped
        ∧ s.nodeStatuses n ≠ .running
        ∧ ((g.startNode = some n ∧ g.getIncomingEdges n = [])
            ∨ ∃ e ∈ g.getIncomingEdges n, evaluateEdgeCondition e s = true)))
    ∧ (∀ e : GraphEdge V, e.condition = .always ∨ e.condition = .onSuccess →
        (evaluateEdgeCondition e s = true ↔
          s.nodeStatuses e.source = .completed))
    ∧ (∀ e : GraphEdge V, e.condition = .onFailure →
        (evaluateEdgeCondition e s = true ↔
          s.nodeStatuses e.source = .failed)) := by
  refine ⟨fun n => ?_, fun e he => ?_, fun e he => ?_⟩
  · rw [mem_getReadyNodes, nodeReady_iff]
  · rcases he with h1 | h1 <;> simp [evaluateEdgeCondition, h1]
  · simp [evaluateEdgeCondition, he]

/-- A state of the A, B, C graph in which A has completed. -/
def s3 : GraphState Nat :=
  { freshState none with
    nodeStatuses := fun n => if n = "A" then .completed else .pending }

/-- C3, witness: with A completed, B is ready in the A, B, C graph, and
the ALWAYS edge from A evaluates true. -/
theorem c3_witness :
    "B" ∈ getReadyNodes c1graph s3
      ∧ evaluateEdgeCondition (mkEdge "A" "B") s3 = true := by
  have h := c3_ready_characterisation c1graph s3
  have hinc : c1graph.getIncomingEdges "B" = [mkEdge "A" "B"] := rfl
  refine ⟨(h.1 "B").mpr ?_, ((h.2.1 (mkEdge "A" "B")) (Or.inl rfl)).mpr rfl⟩
  refine ⟨by simp [c1graph, WorkflowGraph.nodeIds], by decide, by decide,
    by decide, by decide, Or.inr ⟨mkEdge "A" "B", ?_, rfl⟩⟩
  rw [hinc]
  exact List.mem_singleton.mpr rfl

/-- C9: a CONDITIONAL edge is evaluated without consulting the source
status: with no predicate it is true unconditionally, with a predicate it
is exactly the predicate of the current state; any non-terminal,
non-running registered node with a satisfied incoming CONDITIONAL edge is
ready whatever the source status; and concretely, in the two-node graph S,
T with a predicate-free CONDITIONAL edge S to T and entry point T, the
run executes T while S stays PENDING and is never dispatched. -/
theorem c9_conditional_ignores_source :
    (∀ (V : Type) (e : GraphEdge V) (s : GraphState V),
        e.condition = .conditional → e.conditionFn = none →
        evaluateEdgeCondition e s = true)
    ∧ (∀ (V : Type) (e : GraphEdge V) (s : GraphState V)
        (f : GraphState V → Bool),
        e.condition = .conditional → e.conditionFn = some f →
        evaluateEdgeCondition e s = f s)
    ∧ (∀ (V : Type) (g : WorkflowGraph V) (s : GraphState V) (n : String)
        (e : GraphEdge V), n ∈ g.nodeIds → e ∈ g.getIncomingEdges n →
        evaluateEdgeCondition e s = true →
        s.nodeStatuses n = .pending → n ∈ getReadyNodes g s)
    ∧ ((executeOutcome c9graph none none 5).map (fun o =>
        (o.toLS.invoked, o.toLS.state.nodeStatuses "S",
          o.toLS.state.nodeStatuses "T"))
      = some (["T"], .pending, .completed)) := by
  refine ⟨fun V e s h1 h2 => by simp [evaluateEdgeCondition, h1, h2],
    fun V e s f h1 h2 => by simp [evaluateEdgeCondition, h1, h2],
    fun V g s n e hn he heval hst => ?_, rfl⟩
  rw [mem_getReadyNodes, nodeReady_iff]
  exact ⟨hn, by simp [hst], by simp [hst], by simp [hst], by simp [hst],
    Or.inr ⟨e, he, heval⟩⟩

/-- C9, witness: the predicate-free CONDITIONAL edge of the two-node graph
evaluates true on the fresh state, where its source S is still PENDING. -/
theorem c9_witness :
    evaluateEdgeCondition
        ({ source := "S", target := "T", condition := .conditional,
           conditionFn := none, priority := 0 } : GraphEdge Nat)
        (freshState none) = true
      ∧ (freshState (V := Nat) none).nodeStatuses "S" = .pending := by
  exact ⟨c9_conditional_ignores_source.1 Nat _ (freshState none) rfl rfl, rfl⟩

/-- A loop state of the A, B, C graph in which A is already terminal and
already recorded as dispatched. -/
def ls8 : LoopState Nat :=
  { state :=
      { freshState none with
        nodeStatuses := fun n => if n = "A" then .completed else .pending }
    nodesExecuted := 1
    nodesFailed := 0
    invoked := ["A"] }

/-- C8: a node whose status is terminal (COMPLETED, FAILED or SKIPPED) is
never in the ready set, so no scheduler iteration marks it RUNNING or
dispatches its function again: one loop iteration leaves its status
untouched, and the whole loop, for any fuel, leaves its status untouched
and never adds it to the dispatch trace. -/
theorem c8_terminal_never_reentered {V : Type} (g : WorkflowGraph V)
    (mp : Nat) (ls : LoopState V) (n : String)
    (h : isTerminalStatus (ls.state.nodeStatuses n) = true) :
    n ∉ getReadyNodes g ls.state
    ∧ (loopIter g mp ls).toLS.state.nodeStatuses n = ls.state.nodeStatuses n
    ∧ ∀ fuel : Nat,
        (execLoop g mp fuel ls).toLS.state.nodeStatuses n
          = ls.state.nodeStatuses n
        ∧ (n ∉ ls.invoked → n ∉ (execLoop g mp fuel ls).toLS.invoked) := by
  exact ⟨not_mem_getReadyNodes_of_terminal g ls.state n h,
    (loopIter_terminal g mp ls n h).1,
    fun fuel => execLoop_terminal g mp fuel ls n h⟩

/-- C8, witness: with A terminal in the A, B, C graph, A is not ready and
a four-fuel run leaves its status untouched. -/
theorem c8_witness :
    "A" ∉ getReadyNodes c1graph ls8.state
      ∧ (execLoop c1graph 5 4 ls8).toLS.state.nodeStatuses "A"
        = ls8.state.nodeStatuses "A" := by
  have h := c8_terminal_never_reentered c1graph 5 ls8 "A" rfl
  exact ⟨h.1, (h.2.2 4).1⟩

/-- C5: a node whose function fails on every call is invoked exactly
retry_count + 1 times by the node runner, the runner sleeps
retry_delay * attempt-number between consecutive attempts (delays
retry_delay * 1 up to retry_delay * retry_count, in order), and it returns
the failure as a value carrying the latest error message — the exception
never propagates, by the very type of the runner; processing that result
marks the node FAILED. -/
theorem c5_retry_semantics {V : Type} (node : GraphNode V)
    (s : GraphState V) (e : String) (h : ∀ t, node.func t = .error e) :
    executeNode node s =
      { result := .error e
        invocations := node.retryCount + 1
        delays := (List.range node.retryCount).map (fun k =>
          node.retryDelaySeconds * (((k + 1 : Nat)) : Rat)) }
      ∧ ∀ (g : WorkflowGraph V) (ls : LoopState V),
          (processResults g [(node.id, executeNode node s)]
            ls).1.state.nodeStatuses node.id = .failed := by
  have hrun := attemptLoop_always_error node s e h node.retryCount 0
  have hmain : executeNode node s =
      { result := .error e
        invocations := node.retryCount + 1
        delays := (List.range node.retryCount).map (fun k =>
          node.retryDelaySeconds * (((k + 1 : Nat)) : Rat)) } := by
    rw [executeNode, hrun]
    refine congrArg (fun ds => NodeRunResult.mk (Except.error e)
      (node.retryCount + 1) ds) ?_
    apply List.map_congr_left
    intro a ha
    congr 1
    push_cast
    ring
  refine ⟨hmain, fun g ls => ?_⟩
  have hres : (executeNode node s).result = .error e := by rw [hmain]
  cases hb : ((dictLookup g.nodes node.id).getD (defaultNode V)).required <;>
    simp [processResults, processOne, hres, hb]

/-- C5, witness: the always-failing node R with three retries and a
two-second base delay is invoked four times, returns the error value with
its message, sleeps the three linearly growing delays, and is marked
FAILED when its result is processed. -/
theorem c5_witness :
    (executeNode rnode (freshState none)).invocations = 4
      ∧ (executeNode rnode (freshState none)).result = .error "boom"
      ∧ (executeNode rnode (freshState none)).delays
        = (List.range 3).map (fun k => (2 : Rat) * (((k + 1 : Nat)) : Rat))
      ∧ (processResults c1graph [("R", executeNode rnode (freshState none))]
          ls0).1.state.nodeStatuses "R" = .failed := by
  have h := c5_retry_semantics rnode (freshState none) "boom" (fun t => rfl)
  refine ⟨?_, ?_, ?_, h.2 c1graph ls0⟩ <;> rw [h.1] <;> rfl

/-- C2: for a run that exits the loop by the normal ready-set-empty path
(not the required-failure early return), success is: with no finish points
declared, exactly "zero failures were counted"; with finish points
declared, exactly "some declared finish node is COMPLETED in the final
state". -/
theorem c2_success_rule {V : Type} (g : WorkflowGraph V)
    (initial : Option (List (String × V))) (cid : Option String) (mp : Nat)
    (r : ExecutionResult V)
    (hfin : (executeOutcome g initial cid mp).map LoopOutcome.isFinished
      = some true)
    (hr : execute g initial cid mp = .ok r) :
    r.success = true ↔
      (if g.endNodes = [] then r.nodesFailed = 0
       else ∃ n ∈ g.endNodes, r.finalState.nodeStatuses n = .completed) := by
  rcases ho : executeOutcome g initial cid mp with _ | o
  · rw [ho] at hfin
    exact absurd hfin (by simp)
  rcases o with ls | ls | ls
  · have hr2 : execute g initial cid mp = .ok
        { success := if g.endNodes.isEmpty then ls.nodesFailed == 0
            else g.endNodes.any
              (fun n => ls.state.nodeStatuses n == .completed)
          finalState := ls.state
          nodesExecuted := ls.nodesExecuted
          nodesFailed := ls.nodesFailed
          executionOrder := ls.state.executionPath } := by
      simp [execute, ho]
    rw [hr2] at hr
    have hrr := Except.ok.inj hr
    subst hrr
    by_cases hE : g.endNodes = []
    · simp [hE]
    · have hEb : g.endNodes.isEmpty = false := by
        cases hgE : g.endNodes with
        | nil => exact absurd hgE hE
        | cons a l => rfl
      simp [hEb, hE, List.any_eq_true]
  · rw [ho] at hfin
    simp [LoopOutcome.isFinished] at hfin
  · rw [ho] at hfin
    simp [LoopOutcome.isFinished] at hfin

/-- C2, witness: the four-node chain with no finish points finishes
normally and its success is read off the zero-failures rule. -/
theorem c2_witness :
    (executeOutcome g4base none none 2).map LoopOutcome.isFinished
        = some true
      ∧ ∃ r, execute g4base none none 2 = .ok r
        ∧ (r.success = true ↔
            (if g4base.endNodes = [] then r.nodesFailed = 0
             else ∃ n ∈ g4base.endNodes,
               r.finalState.nodeStatuses n = .completed)) := by
  exact ⟨rfl, ⟨_, rfl, c2_success_rule g4base none none 2 _ rfl rfl⟩⟩

/-- C7: executing with a stored (non-empty) checkpoint id starts from a
copy of the stored snapshot; a node terminal in the snapshot is never
dispatched during the resumed run; and concretely, resuming the four-node
chain from the snapshot taken after n2 completed dispatches only n3 and
n4 and counts exactly two executed nodes. -/
theorem c7_checkpoint_resume :
    (∀ (V : Type) (g : WorkflowGraph V)
        (initial : Option (List (String × V))) (cid : String)
        (snap : GraphState V), cid ≠ "" →
        dictLookup g.checkpoints cid = some snap →
        initialRunState g initial (some cid) = snap.copy)
    ∧ (∀ (V : Type) (g : WorkflowGraph V)
        (initial : Option (List (String × V))) (cid : String)
        (snap : GraphState V) (mp : Nat) (n : String) (out : LoopOutcome V),
        cid ≠ "" → dictLookup g.checkpoints cid = some snap →
        isTerminalStatus (snap.nodeStatuses n) = true →
        executeOutcome g initial (some cid) mp = some out →
        n ∉ out.toLS.invoked)
    ∧ ((executeOutcome g4 none (some "ck") 2).map (fun o =>
        (o.toLS.invoked, o.toLS.nodesExecuted)) = some (["n3", "n4"], 2)) := by
  have hrestore : ∀ (V : Type) (g : WorkflowGraph V)
      (initial : Option (List (String × V))) (cid : String)
      (snap : GraphState V), cid ≠ "" →
      dictLookup g.checkpoints cid = some snap →
      initialRunState g initial (some cid) = snap.copy := by
    intro V g initial cid snap hc hl
    simp [initialRunState, hc, hl]
  refine ⟨hrestore, ?_, rfl⟩
  intro V g initial cid snap mp n out hc hl hterm hout
  rw [executeOutcome] at hout
  cases hst : g.startNode with
  | none =>
      rw [hst] at hout
      exact absurd hout (by simp)
  | some s0 =>
      rw [hst] at hout
      dsimp only at hout
      by_cases hs : s0 = ""
      · simp [hs] at hout
      · rw [if_neg hs] at hout
        have hout2 := Option.some.inj hout
        subst hout2
        have hinit := hrestore V g initial cid snap hc hl
        have hterm2 : isTerminalStatus
            ((initialRunState g initial (some cid)).nodeStatuses n)
              = true := by
          rw [hinit]
          exact hterm
        have hloop := execLoop_terminal g mp (g.nodes.length + 1)
          { state := initialRunState g initial (some cid)
            nodesExecuted := 0, nodesFailed := 0, invoked := [] } n hterm2
        exact hloop.2 (List.not_mem_nil n)

/-- C7, witness: the restore hypothesis and conclusion at the concrete
stored checkpoint of the four-node chain. -/
theorem c7_witness :
    initialRunState g4 none (some "ck") = GraphState.copy snap4
      ∧ ("ck" : String) ≠ "" := by
  exact ⟨c7_checkpoint_resume.1 Nat g4 none "ck" snap4 (by decide) rfl,
    by decide⟩

/-- C10: resuming from a checkpoint id that was never stored neither
fails nor resumes: the run is exactly the run with no checkpoint id
passed, starting from a fresh state built from the initial data. -/
theorem c10_unknown_checkpoint_fresh {V : Type} (g : WorkflowGraph V)
    (initial : Option (List (String × V))) (cid : String) (mp : Nat)
    (h : dictLookup g.checkpoints cid = none) :
    execute g initial (some cid) mp = execute g initial none mp := by
  have hinit : initialRunState g initial (some cid)
      = initialRunState g initial none := by
    unfold initialRunState
    by_cases hc : cid = "" <;> simp [hc, h]
  unfold execute executeOutcome
  rw [hinit]

/-- C10, witness: the four-node chain run with the never-stored id "zzz"
is the fresh run. -/
theorem c10_witness :
    dictLookup g4.checkpoints "zzz" = none
      ∧ execute g4 none (some "zzz") 2 = execute g4 none none 2 := by
  exact ⟨rfl, c10_unknown_checkpoint_fresh g4 none "zzz" 2 rfl⟩

end SsisToDbt
